import Mathlib

/-!
Verification of the AISEO report pipeline (Firebase functions).

Shallow embedding of the JS sources:
- `src/unnamed/part_004` (`controllers/websiteStructure.js`): structure prober
  (`checkImageAlts`, `generateRecommendations`).
- `src/firebase/functions/src/controllers/aiAnalysis.js`: AI sub-analysis worker
  (`handleAIAnalysis`, `extractCompanyName`, per-provider API callers).
- `src/unnamed/part_000` (`controllers/pageSpeed.js`) and part_004: worker writes
  into the shared `analysis_results` document via Firestore `set(..., {merge:true})`,
  modelled as `setMerge`.
- `src/unnamed/part_002` (`controllers/analysis.js`): completion detector
  (`handleReportCompletion`) and the legacy monolithic handler
  (`handleAnalysisRequest`).
- `src/firebase/functions/src/index.js`: the `analyze` dispatcher endpoint.

JS strings are modelled as `String` (or `List Char` where character-level
reasoning is needed), JS objects that may lack a field use `Option`, and JS
truthiness of string-valued expressions is `jsTruthy`.
-/

/-- JS truthiness of a possibly-absent string value: `undefined`/`null` and the
empty string are falsy, every other string is truthy. -/
def jsTruthy : Option String → Bool
  | none => false
  | some s => !(s == "")

/-! ## Structure prober (part_004, `controllers/websiteStructure.js`) -/

/-- One `<img>` element as seen by cheerio: `$(elem).attr('alt')` is `undefined`
when the attribute is absent, the attribute text otherwise. -/
structure Img where
  alt : Option String
deriving DecidableEq, Repr

/-- The parsed page as queried by the prober: the counts and texts the cheerio
selectors `$('title')`, `$('h1')`, `$('meta[name="description"]')` and `$('img')`
return on the fetched document. -/
structure Page where
  titleCount : Nat
  titleText : String
  h1Count : Nat
  metaDescriptionCount : Nat
  metaDescriptionContent : Option String
  imgs : List Img
deriving DecidableEq, Repr

/-- The `$('img').each` loop of `checkImageAlts`: walks the images in order and
stops (`return false`) at the first one whose `alt` attribute is falsy. -/
def hasMissingAlt : List Img → Bool
  | [] => false
  | i :: rest => if jsTruthy i.alt then hasMissingAlt rest else true

/-- `checkImageAlts($)` from part_004 lines 100-109: true iff no image has a
missing or empty `alt` attribute. -/
def checkImageAlts (imgs : List Img) : Bool :=
  !(hasMissingAlt imgs)

/-- `generateRecommendations($)` from part_004 lines 116-143: pushes one fixed
string per violated rule, in source order (meta description, title, H1, image
alts); the image loop pushes at most once because it breaks after the first
missing alt. -/
def generateRecommendations (p : Page) : List String :=
  (if p.metaDescriptionCount = 0 then ["Add a meta description tag"] else []) ++
  (if p.titleCount = 0 then ["Add a title tag"] else []) ++
  (if p.h1Count = 0 then ["Add an H1 tag"] else []) ++
  (if hasMissingAlt p.imgs then ["Add alt tags to all images"] else [])

/-- `analyzeWebsiteStructure(url)` result shape (part_004 lines 47-65), given the
parsed page and the outcomes of the two tolerant probes. -/
structure StructureReport where
  robotsTxtFound : Bool
  sitemapXmlFound : Bool
  h1TagsFound : Bool
  imageAltsGood : Bool
  metaDescription : Option String
  titleTag : String
  recommendations : List String
deriving DecidableEq, Repr

/-- The pure part of `analyzeWebsiteStructure(url)`: assembles the structure
report from the parsed page and the two already-resolved robots/sitemap probes. -/
def analyzeWebsiteStructure (robots sitemap : Bool) (p : Page) : StructureReport :=
  { robotsTxtFound := robots
    sitemapXmlFound := sitemap
    h1TagsFound := decide (0 < p.h1Count)
    imageAltsGood := checkImageAlts p.imgs
    metaDescription := p.metaDescriptionContent
    titleTag := p.titleText
    recommendations := generateRecommendations p }

/-- C9: `checkImageAlts` reports true exactly when every image element carries a
truthy (present and non-empty) `alt` attribute; with zero images the universal
quantification is vacuous, so a page with no `<img>` tags reports
`imageAltsGood = true`. -/
theorem checkImageAlts_true_iff (imgs : List Img) :
    checkImageAlts imgs = true ↔ ∀ i ∈ imgs, jsTruthy i.alt = true := by
  induction imgs with
  | nil => simp [checkImageAlts, hasMissingAlt]
  | cons i rest ih =>
    cases h : jsTruthy i.alt with
    | false =>
      simp only [checkImageAlts, hasMissingAlt, h, if_false, Bool.not_true]
      constructor
      · intro hfalse; exact absurd hfalse (by simp)
      · intro hall
        exact absurd (hall i (List.mem_cons_self i rest)) (by simp [h])
    | true =>
      simp only [checkImageAlts, hasMissingAlt, h, if_true] at ih ⊢
      constructor
      · intro hrest j hj
        rcases List.mem_cons.mp hj with rfl | hj'
        · exact h
        · exact (ih.mp hrest) j hj'
      · intro hall
        exact ih.mpr (fun j hj => hall j (List.mem_cons_of_mem i hj))

/-- C8: on a page missing meta description, title and H1 and containing an image
with a falsy alt, `generateRecommendations` yields exactly the four fixed
strings in source order; moreover on every page each rule contributes at most
one copy of its string. -/
theorem generateRecommendations_spec :
    (∀ p : Page, p.metaDescriptionCount = 0 → p.titleCount = 0 → p.h1Count = 0 →
      hasMissingAlt p.imgs = true →
      generateRecommendations p =
        ["Add a meta description tag", "Add a title tag", "Add an H1 tag",
         "Add alt tags to all images"]) ∧
    (∀ p : Page,
      (generateRecommendations p).count "Add a meta description tag" ≤ 1 ∧
      (generateRecommendations p).count "Add a title tag" ≤ 1 ∧
      (generateRecommendations p).count "Add an H1 tag" ≤ 1 ∧
      (generateRecommendations p).count "Add alt tags to all images" ≤ 1) := by
  constructor
  · intro p hm ht hh ha
    simp [generateRecommendations, hm, ht, hh, ha]
  · intro p
    unfold generateRecommendations
    split_ifs <;> refine ⟨?_, ?_, ?_, ?_⟩ <;> decide

/-- C8 witness: a concrete page with no title, no H1, no meta description and a
single alt-less image produces the four recommendation strings in order. -/
theorem generateRecommendations_spec_witness :
    generateRecommendations
        { titleCount := 0, titleText := "", h1Count := 0,
          metaDescriptionCount := 0, metaDescriptionContent := none,
          imgs := [{ alt := none }] } =
      ["Add a meta description tag", "Add a title tag", "Add an H1 tag",
       "Add alt tags to all images"] :=
  generateRecommendations_spec.1 _ rfl rfl rfl rfl

/-! ## The shared `analysis_results` document and the worker merge contract -/

/-- One value stored under a sub-analysis key of the `analysis_results/{reportId}`
document. `status` is the value's top-level `status` field (`none` when the
written object carries no such field, as in the AI success write of
`aiAnalysis.js` lines 94-110, which nests `status` inside `seoAnalysis` /
`companyAnalysis` only); `payload` abstracts the remaining fields and
`timestamp` the stored `new Date()`. -/
structure SubEntry where
  status : Option String
  payload : String
  timestamp : Nat
deriving DecidableEq, Repr

/-- The `analysis_results/{reportId}` document: a JS object mapping sub-analysis
keys (`"gemini"`, `"pageSpeed"`, `"websiteStructure"`, ...) to stored values,
in insertion order. -/
abbrev ResultsDoc : Type := List (String × SubEntry)

/-- Firestore `docRef.set({ [k]: v }, { merge: true })`: replaces the value at
top-level key `k` if present, otherwise appends the new key. This is the single
write primitive every worker uses (part_000 lines 232-238 and 244-250,
part_004 lines 19-25 and 31-37, `aiAnalysis.js` lines 68-74, 94-110, 116-123). -/
def setMerge (doc : ResultsDoc) (k : String) (v : SubEntry) : ResultsDoc :=
  if doc.any (fun kv => kv.1 == k) then
    doc.map (fun kv => if kv.1 == k then (k, v) else kv)
  else doc ++ [(k, v)]

/-- Reading a property of a JS object modelled as a key/value list
(`analysisResultsData[k]`, `aiConfig[analysisType]`): the value at key `k`,
if any. -/
def lookupKey {α : Type} (l : List (String × α)) (k : String) : Option α :=
  (l.find? (fun kv => kv.1 == k)).map Prod.snd

theorem find?_map_setMerge (doc : ResultsDoc) (k : String) (v : SubEntry)
    (h : doc.any (fun kv => kv.1 == k) = true) :
    (doc.map (fun kv => if kv.1 == k then (k, v) else kv)).find?
        (fun kv => kv.1 == k) = some (k, v) := by
  induction doc with
  | nil => simp at h
  | cons a l ih =>
    simp only [List.any_cons, Bool.or_eq_true] at h
    by_cases ha : (a.1 == k) = true
    · rw [List.map_cons, if_pos ha, List.find?_cons_of_pos]
      simp
    · rcases h with h | h
      · exact absurd h ha
      · rw [List.map_cons, if_neg ha, List.find?_cons_of_neg, ih h]
        simpa using ha

theorem find?_append_right_key (doc : ResultsDoc) (k : String) (v : SubEntry)
    (h : doc.any (fun kv => kv.1 == k) = false) :
    (doc ++ [(k, v)]).find? (fun kv => kv.1 == k) = some (k, v) := by
  induction doc with
  | nil => simp
  | cons a l ih =>
    simp only [List.any_cons, Bool.or_eq_false_iff] at h
    rw [List.cons_append, List.find?_cons_of_neg, ih h.2]
    simp [h.1]

/-- After a merge-on-write of value `v` at key `k`, reading key `k` yields `v`. -/
theorem lookupKey_setMerge_self (doc : ResultsDoc) (k : String) (v : SubEntry) :
    lookupKey (setMerge doc k v) k = some v := by
  unfold lookupKey setMerge
  by_cases h : doc.any (fun kv => kv.1 == k) = true
  · rw [if_pos h, find?_map_setMerge doc k v h]
    rfl
  · rw [if_neg h, find?_append_right_key doc k v (Bool.eq_false_iff.mpr h)]
    rfl

theorem setMerge_map_self (doc : ResultsDoc) (k : String) (v : SubEntry)
    (h : doc.any (fun kv => kv.1 == k) = false) :
    doc.map (fun kv => if kv.1 == k then (k, v) else kv) = doc := by
  induction doc with
  | nil => rfl
  | cons a l ih =>
    simp only [List.any_cons, Bool.or_eq_false_iff] at h
    simp only [List.map_cons, h.1, Bool.false_eq_true, if_false, ih h.2]

theorem setMerge_any_of_any (doc : ResultsDoc) (k : String) (v : SubEntry)
    (h : doc.any (fun kv => kv.1 == k) = true) :
    (doc.map (fun kv => if kv.1 == k then (k, v) else kv)).any
      (fun kv => kv.1 == k) = true := by
  induction doc with
  | nil => simp at h
  | cons a l ih =>
    simp only [List.any_cons, Bool.or_eq_true] at h
    by_cases ha : (a.1 == k) = true
    · rw [List.map_cons, if_pos ha, List.any_cons]
      simp
    · rcases h with h | h
      · exact absurd h ha
      · rw [List.map_cons, if_neg ha, List.any_cons, ih h, Bool.or_true]

theorem setMerge_map_idem (doc : ResultsDoc) (k : String) (v : SubEntry) :
    (doc.map (fun kv => if kv.1 == k then (k, v) else kv)).map
        (fun kv => if kv.1 == k then (k, v) else kv) =
      doc.map (fun kv => if kv.1 == k then (k, v) else kv) := by
  induction doc with
  | nil => rfl
  | cons a l ih =>
    simp only [List.map_cons, ih]
    by_cases ha : (a.1 == k) = true
    · rw [if_pos ha]
      simp
    · rw [if_neg ha, if_neg ha]

/-- C7: a worker retrying its own write — the same sub-analysis key with an
identical value — leaves the `analysis_results` document unchanged: the
merge-on-write upsert is idempotent in observable content. -/
theorem setMerge_retry_idempotent (doc : ResultsDoc) (k : String) (v : SubEntry) :
    setMerge (setMerge doc k v) k v = setMerge doc k v := by
  by_cases h : doc.any (fun kv => kv.1 == k) = true
  · unfold setMerge
    simp only [h, if_true, setMerge_any_of_any doc k v h, setMerge_map_idem]
  · have h' : doc.any (fun kv => kv.1 == k) = false := by
      exact Bool.eq_false_iff.mpr h
    unfold setMerge
    simp only [h', Bool.false_eq_true, if_false]
    have hany : (doc ++ [(k, v)]).any (fun kv => kv.1 == k) = true := by
      simp [List.any_append]
    simp only [hany, if_true, List.map_append, setMerge_map_self doc k v h']
    simp

/-! ## Task dispatcher: the `analyze` HTTP endpoint (index.js lines 51-131) -/

/-- The inbound request body `{ websiteUrl, email, industry, location,
companyName, enabledServices }`; every field may be absent. -/
structure AnalyzeRequest where
  websiteUrl : Option String
  email : Option String
  industry : Option String
  location : Option String
  companyName : Option String
  enabledServices : Option (List String)
deriving DecidableEq, Repr

/-- A Pub/Sub task message published by the dispatcher: one `ai-analysis`
message per enabled service, one `pagespeed-analysis` message and one
`website-structure` message. -/
inductive TaskMsg
  | aiMsg (websiteUrl : String) (industry companyName location : Option String)
      (reportId : String) (analysisType : String)
  | pageSpeedMsg (websiteUrl : String) (reportId : String)
  | structureMsg (websiteUrl : String) (reportId : String)
deriving DecidableEq, Repr

/-- The report document created in the `reports` collection (index.js lines
75-82). `prompts` and `submittedAt` are omitted as no claim mentions them. -/
structure ReportDoc where
  websiteUrl : String
  email : Option String
  status : String
  enabledServices : List String
deriving DecidableEq, Repr

/-- The HTTP response sent by `analyze`. -/
structure AnalyzeResponse where
  statusCode : Nat
  errorMsg : Option String
  reportId : Option String
deriving DecidableEq, Repr

/-- Everything `analyze` does on one request: the response plus the created
report documents and the published task messages. -/
structure AnalyzeOutcome where
  response : AnalyzeResponse
  reportsCreated : List ReportDoc
  published : List TaskMsg
deriving DecidableEq, Repr

/-- The default `enabledServices` list
`[ANALYSIS_TYPES.GEMINI, ANALYSIS_TYPES.CLAUDE, ANALYSIS_TYPES.CHATGPT]`
(constants.js). -/
def defaultEnabledServices : List String := ["gemini", "claude", "chatgpt"]

/-- `enabledServices || [GEMINI, CLAUDE, CHATGPT]` (index.js lines 80 and 89):
an absent list falls back to all three providers; a present list — including
the empty array, which is truthy in JS — is used as is. -/
def resolvedServices (req : AnalyzeRequest) : List String :=
  match req.enabledServices with
  | none => defaultEnabledServices
  | some l => l

/-- The `analyze` endpoint (index.js lines 51-131): rejects a falsy
`websiteUrl` with a 400 before any state change; otherwise creates one report
with `status: 'processing'` and `email: email || null`, publishes one AI task
per resolved service, then the pagespeed task and the structure task, and
responds 200 with the report id. `reportId` stands for the id Firestore
generates for the added document; the store itself is modelled as infallible,
so the catch-all 500 path is not reachable in the model. -/
def analyze (req : AnalyzeRequest) (reportId : String) : AnalyzeOutcome :=
  if jsTruthy req.websiteUrl = false then
    { response := { statusCode := 400, errorMsg := some "Website URL is required.",
                    reportId := none },
      reportsCreated := [], published := [] }
  else
    let url := req.websiteUrl.getD ""
    let enabled := resolvedServices req
    { response := { statusCode := 200, errorMsg := none, reportId := some reportId },
      reportsCreated :=
        [{ websiteUrl := url,
           email := if jsTruthy req.email then req.email else none,
           status := "processing", enabledServices := enabled }],
      published :=
        enabled.map
          (fun t => TaskMsg.aiMsg url req.industry req.companyName req.location
            reportId t) ++
        [TaskMsg.pageSpeedMsg url reportId, TaskMsg.structureMsg url reportId] }

/-- C3: on every valid request (truthy `websiteUrl`) the dispatcher creates
exactly one report, that report has `status = "processing"`, and it publishes
exactly `|resolved services| + 2` task messages — the enabled providers (all
three defaults when `enabledServices` is omitted) plus pagespeed and
structure. -/
theorem analyze_valid_request (req : AnalyzeRequest) (rid : String)
    (h : jsTruthy req.websiteUrl = true) :
    (analyze req rid).reportsCreated.length = 1 ∧
    (∀ r ∈ (analyze req rid).reportsCreated, r.status = "processing") ∧
    (analyze req rid).published.length = (resolvedServices req).length + 2 ∧
    (req.enabledServices = none → (analyze req rid).published.length = 5) := by
  have h' : jsTruthy req.websiteUrl ≠ false := by simp [h]
  refine ⟨?_, ?_, ?_, ?_⟩
  · simp [analyze, if_neg h']
  · intro r hr
    simp only [analyze, if_neg h', List.mem_singleton] at hr
    simp [hr]
  · simp [analyze, if_neg h']
  · intro hnone
    simp [analyze, if_neg h', resolvedServices, hnone, defaultEnabledServices]

/-- C3 witness: a concrete request with a websiteUrl and one enabled provider
yields one processing report and three task messages. -/
theorem analyze_valid_request_witness :
    jsTruthy (some "https://example.com") = true ∧
    (analyze
        { websiteUrl := some "https://example.com", email := none,
          industry := none, location := none, companyName := none,
          enabledServices := some ["gemini"] } "r1").reportsCreated.length = 1 ∧
    (analyze
        { websiteUrl := some "https://example.com", email := none,
          industry := none, location := none, companyName := none,
          enabledServices := some ["gemini"] } "r1").published.length = 1 + 2 := by
  refine ⟨by decide, ?_, ?_⟩
  · exact (analyze_valid_request _ "r1" (by decide)).1
  · exact (analyze_valid_request _ "r1" (by decide)).2.2.1

/-- C6: a request whose `websiteUrl` is absent is rejected with status 400 and
an error message before any state change: no report is created and no task
message is published. -/
theorem analyze_missing_url (req : AnalyzeRequest) (rid : String)
    (h : req.websiteUrl = none) :
    (analyze req rid).response.statusCode = 400 ∧
    (analyze req rid).response.errorMsg = some "Website URL is required." ∧
    (analyze req rid).reportsCreated = [] ∧
    (analyze req rid).published = [] := by
  have hf : jsTruthy req.websiteUrl = false := by simp [h, jsTruthy]
  refine ⟨?_, ?_, ?_, ?_⟩ <;> simp [analyze, hf]

/-- C6 witness: the concrete empty request is rejected with a 400 and no
side effects. -/
theorem analyze_missing_url_witness :
    (analyze
        { websiteUrl := none, email := none, industry := none, location := none,
          companyName := none, enabledServices := none } "r1").response.statusCode
      = 400 ∧
    (analyze
        { websiteUrl := none, email := none, industry := none, location := none,
          companyName := none, enabledServices := none } "r1").published = [] :=
  ⟨(analyze_missing_url _ "r1" rfl).1, (analyze_missing_url _ "r1" rfl).2.2.2⟩

/-! ## AI sub-analysis worker (`controllers/aiAnalysis.js`) -/

/-- One entry of the AI configuration (`aiConfig[analysisType]`): only the
`enabled` flag steers control flow; `model` is carried into success writes. -/
structure ServiceConfig where
  enabled : Bool
  model : String
deriving DecidableEq, Repr

/-- The process environment as read by the API callers: `GEMINI_API_KEY`,
`CLAUDE_API_KEY`, `CHATGPT_API_KEY` (absent or a string, possibly empty). -/
structure AIEnv where
  geminiApiKey : Option String
  claudeApiKey : Option String
  chatgptApiKey : Option String
deriving DecidableEq, Repr

/-- `callGeminiAPI` (aiAnalysis.js lines 154-176): `if (!apiKey) throw` happens
before any `axios.post`, so a falsy key yields the error with zero network
calls; with a key present the single `axios.post` is one network call whose
payload is opaque here. -/
def callGeminiAPI (env : AIEnv) : Except String Unit × Nat :=
  if jsTruthy env.geminiApiKey then (Except.ok (), 1)
  else (Except.error "Gemini API key not configured", 0)

/-- `callClaudeAPI` (aiAnalysis.js lines 178-199): key check before the post. -/
def callClaudeAPI (env : AIEnv) : Except String Unit × Nat :=
  if jsTruthy env.claudeApiKey then (Except.ok (), 1)
  else (Except.error "Claude API key not configured", 0)

/-- `callChatGPTAPI` (aiAnalysis.js lines 201-221): key check before the post. -/
def callChatGPTAPI (env : AIEnv) : Except String Unit × Nat :=
  if jsTruthy env.chatgptApiKey then (Except.ok (), 1)
  else (Except.error "ChatGPT API key not configured", 0)

/-- `getAPICallFunction(analysisType)` (aiAnalysis.js lines 131-142). -/
def getAPICallFunction (analysisType : String) :
    Option (AIEnv → Except String Unit × Nat) :=
  if analysisType = "gemini" then some callGeminiAPI
  else if analysisType = "claude" then some callClaudeAPI
  else if analysisType = "chatgpt" then some callChatGPTAPI
  else none

/-- What one `handleAIAnalysis` invocation does: the `analysis_results` document
after its write, how many provider network calls it made, and whether it
re-threw the error after recording it (the catch block ends in `throw error`). -/
structure WorkerOutcome where
  doc : ResultsDoc
  networkCalls : Nat
  rethrown : Bool
deriving Repr

/-- `handleAIAnalysis` (aiAnalysis.js lines 57-126). Control flow from the
source: a missing or disabled `aiConfig[analysisType]` records a `skipped`
entry and returns; an unknown analysis type throws, and the catch records an
`error` entry; otherwise both prompts run through the same API caller
(`Promise.all`), a thrown "<X> API key not configured" is recorded as an
`error` entry, and on success the stored object nests the per-prompt results —
its top level has no `status` field, hence `status := none` there. -/
def handleAIAnalysis (cfg : List (String × ServiceConfig)) (env : AIEnv)
    (doc : ResultsDoc) (analysisType : String) (ts : Nat) : WorkerOutcome :=
  match lookupKey cfg analysisType with
  | none =>
      { doc := setMerge doc analysisType
          { status := some "skipped",
            payload := "Service is disabled or not configured", timestamp := ts },
        networkCalls := 0, rethrown := false }
  | some sc =>
      if sc.enabled = false then
        { doc := setMerge doc analysisType
            { status := some "skipped",
              payload := "Service is disabled or not configured", timestamp := ts },
          networkCalls := 0, rethrown := false }
      else
        match getAPICallFunction analysisType with
        | none =>
            { doc := setMerge doc analysisType
                { status := some "error",
                  payload := "No API call function found for " ++ analysisType,
                  timestamp := ts },
              networkCalls := 0, rethrown := true }
        | some fn =>
            let seo := fn env
            let comp := fn env
            let net := seo.2 + comp.2
            match seo.1 with
            | Except.error msg =>
                { doc := setMerge doc analysisType
                    { status := some "error", payload := msg, timestamp := ts },
                  networkCalls := net, rethrown := true }
            | Except.ok _ =>
                match comp.1 with
                | Except.error msg =>
                    { doc := setMerge doc analysisType
                        { status := some "error", payload := msg, timestamp := ts },
                      networkCalls := net, rethrown := true }
                | Except.ok _ =>
                    { doc := setMerge doc analysisType
                        { status := none, payload := "nested seo and company results",
                          timestamp := ts },
                      networkCalls := net, rethrown := false }

/-- The environment entry the API caller for analysis type `t` consults. -/
def envKeyFor (env : AIEnv) (t : String) : Option String :=
  if t = "gemini" then env.geminiApiKey
  else if t = "claude" then env.claudeApiKey
  else if t = "chatgpt" then env.chatgptApiKey
  else none

/-- The message of the error thrown when the credential for `t` is falsy. -/
def notConfiguredMsg (t : String) : String :=
  if t = "gemini" then "Gemini API key not configured"
  else if t = "claude" then "Claude API key not configured"
  else "ChatGPT API key not configured"

/-- C5 (amended): an enabled provider whose credential is absent or empty gets
an `error` entry carrying the "<X> API key not configured" message — not a
`skipped` entry — recorded under its key with zero network calls; the
`skipped` entry arises only when the service is missing from the configuration
or disabled there, again with zero network calls. Either way the worker
records a result under the provider's key rather than crashing without a
write. -/
theorem handleAIAnalysis_credential_spec :
    (∀ (cfg : List (String × ServiceConfig)) (env : AIEnv) (doc : ResultsDoc)
        (t : String) (ts : Nat) (sc : ServiceConfig),
      lookupKey cfg t = some sc → sc.enabled = true →
      (t = "gemini" ∨ t = "claude" ∨ t = "chatgpt") →
      jsTruthy (envKeyFor env t) = false →
      (handleAIAnalysis cfg env doc t ts).networkCalls = 0 ∧
      lookupKey (handleAIAnalysis cfg env doc t ts).doc t =
        some { status := some "error", payload := notConfiguredMsg t,
               timestamp := ts }) ∧
    (∀ (cfg : List (String × ServiceConfig)) (env : AIEnv) (doc : ResultsDoc)
        (t : String) (ts : Nat),
      (lookupKey cfg t = none ∨
        ∃ sc, lookupKey cfg t = some sc ∧ sc.enabled = false) →
      (handleAIAnalysis cfg env doc t ts).networkCalls = 0 ∧
      lookupKey (handleAIAnalysis cfg env doc t ts).doc t =
        some { status := some "skipped",
               payload := "Service is disabled or not configured",
               timestamp := ts }) := by
  constructor
  · intro cfg env doc t ts sc hsc hen ht hkey
    have hen' : ¬ sc.enabled = false := by simp [hen]
    rcases ht with rfl | rfl | rfl
    · have hk : jsTruthy env.geminiApiKey = false := by
        simpa [envKeyFor] using hkey
      simp [handleAIAnalysis, hsc, hen', getAPICallFunction, callGeminiAPI, hk,
        notConfiguredMsg, lookupKey_setMerge_self]
    · have hk : jsTruthy env.claudeApiKey = false := by
        simpa [envKeyFor] using hkey
      simp [handleAIAnalysis, hsc, hen', getAPICallFunction, callClaudeAPI, hk,
        notConfiguredMsg, lookupKey_setMerge_self]
    · have hk : jsTruthy env.chatgptApiKey = false := by
        simpa [envKeyFor] using hkey
      simp [handleAIAnalysis, hsc, hen', getAPICallFunction, callChatGPTAPI, hk,
        notConfiguredMsg, lookupKey_setMerge_self]
  · intro cfg env doc t ts hdis
    rcases hdis with hnone | ⟨sc, hsc, hdis⟩
    · simp [handleAIAnalysis, hnone, lookupKey_setMerge_self]
    · simp [handleAIAnalysis, hsc, hdis, lookupKey_setMerge_self]

/-- The environment with no provider credential configured. -/
def noKeyEnv : AIEnv :=
  { geminiApiKey := none, claudeApiKey := none, chatgptApiKey := none }

/-- A configuration in which claude is present and enabled. -/
def claudeOnlyCfg : List (String × ServiceConfig) :=
  [("claude", { enabled := true, model := "claude-3-opus-20240229" })]

/-- C5 counterexample: with claude enabled but no `CLAUDE_API_KEY`, the worker
records an `error` entry (message "Claude API key not configured"), not the
`skipped` entry the claim requires; it indeed makes no network call. -/
theorem handleAIAnalysis_missing_key_is_error :
    (handleAIAnalysis claudeOnlyCfg noKeyEnv [] "claude" 0).networkCalls = 0 ∧
    lookupKey (handleAIAnalysis claudeOnlyCfg noKeyEnv [] "claude" 0).doc
        "claude" =
      some { status := some "error", payload := "Claude API key not configured",
             timestamp := 0 } ∧
    (lookupKey (handleAIAnalysis claudeOnlyCfg noKeyEnv [] "claude" 0).doc
        "claude").map SubEntry.status ≠ some (some "skipped") := by
  refine ⟨by rfl, by rfl, by decide⟩

/-- C5 witness: the amended theorem applied at the concrete claude
configuration and empty environment, and at a configuration lacking the
requested service. -/
theorem handleAIAnalysis_credential_spec_witness :
    ((handleAIAnalysis claudeOnlyCfg noKeyEnv [] "claude" 0).networkCalls = 0 ∧
      lookupKey (handleAIAnalysis claudeOnlyCfg noKeyEnv [] "claude" 0).doc
          "claude" =
        some { status := some "error",
               payload := "Claude API key not configured", timestamp := 0 }) ∧
    ((handleAIAnalysis [] noKeyEnv [] "gemini" 0).networkCalls = 0 ∧
      lookupKey (handleAIAnalysis [] noKeyEnv [] "gemini" 0).doc "gemini" =
        some { status := some "skipped",
               payload := "Service is disabled or not configured",
               timestamp := 0 }) :=
  ⟨handleAIAnalysis_credential_spec.1 claudeOnlyCfg noKeyEnv [] "claude" 0
      { enabled := true, model := "claude-3-opus-20240229" } (by rfl) (by rfl)
      (Or.inr (Or.inl rfl)) (by decide),
    handleAIAnalysis_credential_spec.2 [] noKeyEnv [] "gemini" 0
      (Or.inl (by rfl))⟩

/-! ## Completion detector (`part_002`, `controllers/analysis.js`) -/

/-- The `reports/{reportId}` document as the detector reads it: lifecycle
`status`, the `enabledServices` array recorded at creation (absent on reports
created by the legacy handler), and the optional contact email. -/
structure Report where
  status : String
  enabledServices : Option (List String)
  email : Option String
deriving DecidableEq, Repr

/-- The aggregated shape the detector merges into the report (part_002 lines
265-275): per-service AI results, and the `websiteStructure` / `pageSpeed`
entries — `none` standing for the `{ error: 'Data not found' }` fallback the
`||` default produces. -/
structure FinalReport where
  aiAnalysis : List (String × SubEntry)
  websiteStructure : Option SubEntry
  pageSpeed : Option SubEntry
deriving DecidableEq, Repr

/-- `completedServices` (part_002 lines 250-252): the keys of the analysis
results document whose value carries `status === 'completed'` — values tagged
`error` or `skipped`, or with no top-level `status` field, are filtered out. -/
def completedServices (doc : ResultsDoc) : List String :=
  (doc.filter (fun kv => kv.2.status == some "completed")).map Prod.fst

/-- The read-and-decide part of `handleReportCompletion` (part_002 lines
222-275), from a snapshot of the two documents: `none` means the invocation
returns without writing (report missing, already completed, results missing,
or fewer than `enabledServices.length + 2` completed entries); `some fr` means
it will write `fr` merged with `status: 'completed'` onto the report. -/
def reportCompletionUpdate (report : Option Report) (results : Option ResultsDoc) :
    Option FinalReport :=
  match report with
  | none => none
  | some r =>
    if r.status = "completed" then none
    else
      match results with
      | none => none
      | some doc =>
        let enabled := r.enabledServices.getD []
        let expectedCompletionCount := enabled.length + 2
        if (completedServices doc).length < expectedCompletionCount then none
        else
          some { aiAnalysis :=
                   enabled.filterMap (fun s => (lookupKey doc s).map (fun e => (s, e))),
                 websiteStructure := lookupKey doc "websiteStructure",
                 pageSpeed := lookupKey doc "pageSpeed" }

/-- The two Firestore documents the detector coordinates through. -/
structure Store where
  report : Option Report
  results : Option ResultsDoc
deriving DecidableEq, Repr

/-- A `generate-pdf-report` Pub/Sub payload `{ documentId, recipientEmail }`. -/
structure PdfTask where
  documentId : String
  recipientEmail : String
deriving DecidableEq, Repr

/-- What one `handleReportCompletion` invocation does: the store afterwards,
the final report it merged (if it finalized), and the Pub/Sub messages it
published. -/
structure DetectorOutcome where
  store : Store
  finalized : Option FinalReport
  published : List PdfTask
deriving DecidableEq, Repr

/-- One atomic (non-interleaved) invocation of `handleReportCompletion`
(part_002 lines 217-296): decide from the current documents, and on the
finalize path perform `reportRef.update({...finalReport, status: 'completed',
completedAt})`. The source body contains no Pub/Sub publish, so `published`
is empty on every path. -/
def handleReportCompletion (st : Store) : DetectorOutcome :=
  match reportCompletionUpdate st.report st.results with
  | none => { store := st, finalized := none, published := [] }
  | some fr =>
      { store :=
          { st with report := st.report.map (fun r => { r with status := "completed" }) },
        finalized := some fr, published := [] }

/-- `n` serialized detector triggers on the same report: each invocation runs
to completion before the next starts; returns the final store and the number
of finalization writes performed. -/
def runDetectorSerial : Nat → Store → Store × Nat
  | 0, st => (st, 0)
  | Nat.succ n, st =>
      let o := handleReportCompletion st
      let rest := runDetectorSerial n o.store
      (rest.1, (if o.finalized.isSome then 1 else 0) + rest.2)

theorem reportCompletionUpdate_completed_none (r : Report)
    (results : Option ResultsDoc) (hc : r.status = "completed") :
    reportCompletionUpdate (some r) results = none := by
  simp [reportCompletionUpdate, hc]

theorem handleReportCompletion_completed_noop (st : Store) (r : Report)
    (h : st.report = some r) (hc : r.status = "completed") :
    handleReportCompletion st = { store := st, finalized := none, published := [] } := by
  simp [handleReportCompletion, h, reportCompletionUpdate_completed_none r st.results hc]

theorem handleReportCompletion_finalized_status (st : Store)
    (h : (handleReportCompletion st).finalized.isSome = true) :
    ∃ r : Report, (handleReportCompletion st).store.report = some r ∧
      r.status = "completed" := by
  cases hrep : st.report with
  | none =>
    rw [handleReportCompletion, hrep] at h
    simp [reportCompletionUpdate] at h
  | some r =>
    cases hupd : reportCompletionUpdate (some r) st.results with
    | none =>
      rw [handleReportCompletion, hrep, hupd] at h
      simp at h
    | some fr =>
      refine ⟨{ r with status := "completed" }, ?_, rfl⟩
      rw [handleReportCompletion, hrep, hupd]
      rfl

theorem runDetectorSerial_completed_zero (n : Nat) (st : Store) (r : Report)
    (h : st.report = some r) (hc : r.status = "completed") :
    (runDetectorSerial n st).2 = 0 := by
  induction n with
  | zero => rfl
  | succ n ih =>
    have hnoop := handleReportCompletion_completed_noop st r h hc
    simp [runDetectorSerial, hnoop, ih]

/-- C1 (amended): under serialized triggers — each invocation of
`handleReportCompletion` running to completion before the next begins — any
number of duplicate triggers performs the finalization write at most once, and
an invocation that observes `status === 'completed'` performs no write at all.
(The unguarded read-then-write of the source does not extend this to
interleaved concurrent triggers; see the race counterexample.) -/
theorem handleReportCompletion_serial_at_most_once :
    (∀ (n : Nat) (st : Store), (runDetectorSerial n st).2 ≤ 1) ∧
    (∀ (st : Store) (r : Report), st.report = some r → r.status = "completed" →
      handleReportCompletion st =
        { store := st, finalized := none, published := [] }) := by
  constructor
  · intro n
    induction n with
    | zero => intro st; simp [runDetectorSerial]
    | succ n ih =>
      intro st
      by_cases hf : (handleReportCompletion st).finalized.isSome = true
      · obtain ⟨r, hr, hc⟩ := handleReportCompletion_finalized_status st hf
        have h0 := runDetectorSerial_completed_zero n _ r hr hc
        simp [runDetectorSerial, hf, h0]
      · have hf' : (handleReportCompletion st).finalized.isSome = false :=
          Bool.eq_false_iff.mpr hf
        simp only [runDetectorSerial, hf', Bool.false_eq_true, if_false, Nat.zero_add]
        exact ih _
  · exact fun st r h hc => handleReportCompletion_completed_noop st r h hc

/-- A report mid-flight with one enabled provider and an email on file. -/
def raceReport : Report :=
  { status := "processing", enabledServices := some ["gemini"],
    email := some "user@example.com" }

/-- An analysis results document in which all three expected keys carry
`status: 'completed'`. -/
def raceDoc : ResultsDoc :=
  [("gemini", { status := some "completed", payload := "g", timestamp := 0 }),
   ("pageSpeed", { status := some "completed", payload := "p", timestamp := 0 }),
   ("websiteStructure", { status := some "completed", payload := "w", timestamp := 0 })]

/-- The store at the moment the last sub-analysis write lands. -/
def raceStore : Store := { report := some raceReport, results := some raceDoc }

/-- C1 witness: the serial bound applied at three triggers on the concrete
race store, and the no-write guarantee applied at the already-completed
report. -/
theorem handleReportCompletion_serial_at_most_once_witness :
    (runDetectorSerial 3 raceStore).2 ≤ 1 ∧
    handleReportCompletion
        { report := some { status := "completed", enabledServices := some ["gemini"],
                           email := none },
          results := some raceDoc } =
      { store := { report := some { status := "completed",
                                    enabledServices := some ["gemini"],
                                    email := none },
                   results := some raceDoc },
        finalized := none, published := [] } :=
  ⟨handleReportCompletion_serial_at_most_once.1 3 raceStore,
   handleReportCompletion_serial_at_most_once.2 _
     { status := "completed", enabledServices := some ["gemini"], email := none }
     rfl rfl⟩

/-! ### Interleaved triggers

`handleReportCompletion` awaits `reportRef.get()` and `analysisResultsRef.get()`
before it awaits `reportRef.update(...)`; two Firestore-triggered invocations of
the function may therefore both take their snapshots before either writes. A
trigger is modelled in two atomic phases: reading the snapshot, then acting on
it. -/

/-- The lifecycle of one detector invocation: not yet started, holding its
snapshot of the two documents, or returned. -/
inductive Phase
  | ready
  | loaded (snap : Store)
  | finished
deriving DecidableEq, Repr

/-- The shared store, the number of finalization writes performed so far, and
the phase of each in-flight trigger. -/
structure Sys where
  store : Store
  finalizeWrites : Nat
  triggers : List Phase
deriving DecidableEq, Repr

/-- Advance trigger `i` by one atomic phase: a `ready` trigger snapshots the
current store; a `loaded` trigger applies `reportCompletionUpdate` to its
snapshot and, on the finalize path, performs the unconditional
`reportRef.update` (setting `status: 'completed'`) against the current store. -/
def stepTrigger (sys : Sys) (i : Nat) : Sys :=
  match sys.triggers.get? i with
  | some Phase.ready =>
      { sys with triggers := sys.triggers.set i (Phase.loaded sys.store) }
  | some (Phase.loaded snap) =>
      (match reportCompletionUpdate snap.report snap.results with
       | none => { sys with triggers := sys.triggers.set i Phase.finished }
       | some _ =>
          { store :=
              { sys.store with
                report := sys.store.report.map (fun r => { r with status := "completed" }) },
            finalizeWrites := sys.finalizeWrites + 1,
            triggers := sys.triggers.set i Phase.finished })
  | _ => sys

/-- Run a schedule: at each step the named trigger advances one phase. -/
def runSched (sched : List Nat) (sys : Sys) : Sys :=
  sched.foldl stepTrigger sys

/-- Two concurrent detector triggers on the race store, neither yet started. -/
def raceSys : Sys :=
  { store := raceStore, finalizeWrites := 0, triggers := [Phase.ready, Phase.ready] }

/-- C1 counterexample: under the interleaving in which both triggers read the
documents before either writes — a schedule the source admits, since its
status check is a plain read before a plain update — both pass the
`status === 'completed'` guard and both perform the finalization write: two
finalizations for one report, refuting "at most once" for concurrent
triggers. -/
theorem handleReportCompletion_race_double_finalize :
    (runSched [0, 1, 0, 1] raceSys).finalizeWrites = 2 := by rfl

/-- C2 (amended): for a report not already completed and an existing results
document, a detector trigger finalizes the report exactly when at least
`enabledServices.length + 2` entries of the document carry top-level
`status === 'completed'`. Entries tagged `error` or `skipped` never satisfy
the filter, so they do not count toward the threshold — a report with an
errored sub-analysis does not finalize on that count — while any key whose
entry is completed-tagged counts, whether or not it belongs to the expected
set. -/
theorem reportCompletionUpdate_completed_iff (r : Report) (doc : ResultsDoc)
    (h : r.status ≠ "completed") :
    (reportCompletionUpdate (some r) (some doc)).isSome = true ↔
      (r.enabledServices.getD []).length + 2 ≤
        (doc.filter (fun kv => kv.2.status == some "completed")).length := by
  have hlen : (completedServices doc).length =
      (doc.filter (fun kv => kv.2.status == some "completed")).length := by
    unfold completedServices
    exact List.length_map _ _
  by_cases hlt :
      (completedServices doc).length < (r.enabledServices.getD []).length + 2
  · rw [reportCompletionUpdate, if_neg h]
    simp only [if_pos hlt, Option.isSome_none, Bool.false_eq_true, false_iff]
    omega
  · rw [reportCompletionUpdate, if_neg h]
    simp only [if_neg hlt, Option.isSome_some, true_iff]
    omega

/-- A processing report expecting gemini plus the two standalone analyses. -/
def errReport : Report :=
  { status := "processing", enabledServices := some ["gemini"], email := none }

/-- A results document in which every expected key is present and done —
gemini tagged `error`, the other two `completed`. -/
def errDoc : ResultsDoc :=
  [("gemini", { status := some "error", payload := "Gemini API key not configured",
                timestamp := 0 }),
   ("pageSpeed", { status := some "completed", payload := "p", timestamp := 0 }),
   ("websiteStructure", { status := some "completed", payload := "w", timestamp := 0 })]

/-- C2 counterexample: every member of the expected set {gemini, pageSpeed,
websiteStructure} has an entry tagged completed/error/skipped, yet the
detector does not finalize — the errored entry is not counted, so the claimed
"if" direction fails on the code (2 completed-tagged entries < 3 expected). -/
theorem reportCompletion_error_does_not_count :
    (lookupKey errDoc "gemini").map SubEntry.status = some (some "error") ∧
    (lookupKey errDoc "pageSpeed").map SubEntry.status = some (some "completed") ∧
    (lookupKey errDoc "websiteStructure").map SubEntry.status =
      some (some "completed") ∧
    errReport.status = "processing" ∧
    reportCompletionUpdate (some errReport) (some errDoc) = none ∧
    handleReportCompletion { report := some errReport, results := some errDoc } =
      { store := { report := some errReport, results := some errDoc },
        finalized := none, published := [] } :=
  ⟨rfl, rfl, rfl, rfl, rfl, rfl⟩

/-- C2 witness: the amended criterion applied at the error document (threshold
missed: no finalization) and at the fully completed race document (threshold
met: finalization). -/
theorem reportCompletionUpdate_completed_iff_witness :
    ¬ (reportCompletionUpdate (some errReport) (some errDoc)).isSome = true ∧
    (reportCompletionUpdate (some raceReport) (some raceDoc)).isSome = true := by
  constructor
  · intro hs
    have h := (reportCompletionUpdate_completed_iff errReport errDoc
      (by decide)).mp hs
    revert h
    decide
  · exact (reportCompletionUpdate_completed_iff raceReport raceDoc
      (by decide)).mpr (by decide)

/-! ## Legacy monolithic handler (`part_002` lines 10-65) -/

/-- The observable effects of `handleAnalysisRequest` relevant here: response
status, the lifecycle status written on the report it creates, and the
`generate-pdf-report` messages it publishes. The aggregation of the five
settled API calls is abstracted away — it influences neither the report
status nor the PDF dispatch. -/
structure LegacyOutcome where
  statusCode : Nat
  reportStatus : Option String
  published : List PdfTask
deriving DecidableEq, Repr

/-- `handleAnalysisRequest` (part_002 lines 10-65): rejects a falsy URL with
400; otherwise stores a report with `status: 'completed'` and — only when
`email` is truthy — publishes exactly one `generate-pdf-report` message
`{ documentId: reportRef.id, recipientEmail: email }`. -/
def handleAnalysisRequest (websiteUrl email : Option String) (reportId : String) :
    LegacyOutcome :=
  if jsTruthy websiteUrl = false then
    { statusCode := 400, reportStatus := none, published := [] }
  else
    { statusCode := 200, reportStatus := some "completed",
      published :=
        if jsTruthy email then
          [{ documentId := reportId, recipientEmail := email.getD "" }]
        else [] }

/-- C4 (amended): the Completion Detector never enqueues a PDF/email task —
`handleReportCompletion` publishes nothing on any path, whether or not an
email was supplied at creation. The only PDF/email enqueue in the sources is
in the legacy `handleAnalysisRequest`, which publishes exactly one task
carrying the report id and email when email is truthy, and none otherwise. -/
theorem pdfTask_responsibility :
    (∀ st : Store, (handleReportCompletion st).published = []) ∧
    (∀ (u e : Option String) (rid : String), jsTruthy u = true →
      jsTruthy e = true →
      (handleAnalysisRequest u e rid).published =
        [{ documentId := rid, recipientEmail := e.getD "" }]) ∧
    (∀ (u e : Option String) (rid : String), jsTruthy e = false →
      (handleAnalysisRequest u e rid).published = []) := by
  refine ⟨?_, ?_, ?_⟩
  · intro st
    cases h : reportCompletionUpdate st.report st.results <;>
      simp [handleReportCompletion, h]
  · intro u e rid hu he
    simp [handleAnalysisRequest, hu, he]
  · intro u e rid he
    by_cases hu : jsTruthy u = false
    · simp [handleAnalysisRequest, hu]
    · simp [handleAnalysisRequest, hu, he]

/-- C4 counterexample: at a store whose report carries an email and whose
results are all completed, the detector does finalize the report, yet
publishes no PDF/email task — not the exactly-one the claim requires. -/
theorem handleReportCompletion_publishes_no_pdf :
    (handleReportCompletion raceStore).finalized.isSome = true ∧
    raceReport.email = some "user@example.com" ∧
    (handleReportCompletion raceStore).published = [] :=
  ⟨rfl, rfl, rfl⟩

/-- C4 witness: the amended theorem applied at the race store and at concrete
legacy-handler inputs with and without an email. -/
theorem pdfTask_responsibility_witness :
    (handleReportCompletion raceStore).published = [] ∧
    (handleAnalysisRequest (some "https://example.com") (some "user@example.com")
        "r1").published =
      [{ documentId := "r1", recipientEmail := "user@example.com" }] ∧
    (handleAnalysisRequest (some "https://example.com") none "r1").published = [] :=
  ⟨pdfTask_responsibility.1 raceStore,
   pdfTask_responsibility.2.1 (some "https://example.com")
     (some "user@example.com") "r1" (by decide) (by decide),
   pdfTask_responsibility.2.2 (some "https://example.com") none "r1" (by decide)⟩

/-! ## `extractCompanyName` (aiAnalysis.js lines 42-52)

Character-level reasoning is needed here, so JS strings are `List Char`.
`new URL(url)` is a platform builtin; `parseHostname` is a simplified model of
its hostname extraction (scheme, `"://"`, host up to the first delimiter; it
omits WHATWG details such as case normalization and scheme-relative forms).
The two regex replaces of the source are translated exactly: `/^www\./` with
`''` and `/\.[^/.]+$/` with `''`. -/

/-- Modelled from the platform `new URL` constructor: `some hostname` when the
input parses (an alphabetic scheme, `"://"`, then a nonempty host read up to
the first `/`, `:`, `?` or `#`), `none` when construction would throw. -/
def parseHostname (s : List Char) : Option (List Char) :=
  let scheme := s.takeWhile (fun c => c.isAlpha)
  let rest := s.drop scheme.length
  if scheme = [] then none
  else if rest.take 3 = "://".toList then
    let host := (rest.drop 3).takeWhile
      (fun c => !(c == '/') && !(c == ':') && !(c == '?') && !(c == '#'))
    if host = [] then none else some host
  else none

/-- `hostname.replace(/^www\./, '')`: the anchored pattern matches exactly when
the string starts with `www.`, and replacing it with the empty string drops
those four characters. -/
def replaceLeadingWww (s : List Char) : List Char :=
  if s.take 4 = "www.".toList then s.drop 4 else s

/-- `.replace(/\.[^/.]+$/, '')`: the pattern matches a dot followed by one or
more characters none of which is `.` or `/`, anchored at the end — so the only
possible match starts at the last dot. The replace removes that suffix when
the part after the last dot is nonempty and free of `/` (it is free of `.` by
construction), and leaves the string unchanged otherwise. -/
def removeDotSuffix (s : List Char) : List Char :=
  if '.' ∈ s then
    let pre := (((s.reverse).dropWhile (fun c => !(c == '.'))).tail).reverse
    let tl := ((s.reverse).takeWhile (fun c => !(c == '.'))).reverse
    if tl ≠ [] ∧ '/' ∉ tl then pre else s
  else s

/-- `extractCompanyName(url)` (aiAnalysis.js lines 42-52): the `try` branch
parses the URL and applies the two replaces to its hostname; the `catch`
branch returns `'the company'` for any input on which `new URL` throws. -/
def extractCompanyName (url : List Char) : List Char :=
  match parseHostname url with
  | none => "the company".toList
  | some hostname => removeDotSuffix (replaceLeadingWww hostname)

theorem dropWhile_not_dot_append (u v : List Char) (h : ∀ c ∈ u, c ≠ '.') :
    (u ++ '.' :: v).dropWhile (fun c => !(c == '.')) = '.' :: v := by
  induction u with
  | nil => simp [List.dropWhile_cons]
  | cons a u ih =>
    have ha : (a == '.') = false := by
      simpa using h a (List.mem_cons_self a u)
    simp only [List.cons_append, List.dropWhile_cons, ha, Bool.not_false, if_true]
    exact ih (fun c hc => h c (List.mem_cons_of_mem a hc))

theorem takeWhile_not_dot_append (u v : List Char) (h : ∀ c ∈ u, c ≠ '.') :
    (u ++ '.' :: v).takeWhile (fun c => !(c == '.')) = u := by
  induction u with
  | nil => simp [List.takeWhile_cons]
  | cons a u ih =>
    have ha : (a == '.') = false := by
      simpa using h a (List.mem_cons_self a u)
    simp only [List.cons_append, List.takeWhile_cons, ha, Bool.not_false, if_true]
    rw [ih (fun c hc => h c (List.mem_cons_of_mem a hc))]

theorem removeDotSuffix_append (s t : List Char) (ht : t ≠ [])
    (hdot : ∀ c ∈ t, c ≠ '.') (hslash : ∀ c ∈ t, c ≠ '/') :
    removeDotSuffix (s ++ '.' :: t) = s := by
  have hmem : '.' ∈ s ++ '.' :: t :=
    List.mem_append.mpr (Or.inr (List.mem_cons_self _ _))
  have hrev : (s ++ '.' :: t).reverse = t.reverse ++ '.' :: s.reverse := by
    simp [List.reverse_append]
  have hd : ((s ++ '.' :: t).reverse).dropWhile (fun c => !(c == '.')) =
      '.' :: s.reverse := by
    rw [hrev]
    exact dropWhile_not_dot_append t.reverse s.reverse
      (fun c hc => hdot c (List.mem_reverse.mp hc))
  have htk : ((s ++ '.' :: t).reverse).takeWhile (fun c => !(c == '.')) =
      t.reverse := by
    rw [hrev]
    exact takeWhile_not_dot_append t.reverse s.reverse
      (fun c hc => hdot c (List.mem_reverse.mp hc))
  unfold removeDotSuffix
  rw [if_pos hmem]
  simp only [hd, htk, List.tail_cons, List.reverse_reverse]
  rw [if_pos ⟨ht, fun hx => hslash '/' hx rfl⟩]

/-- C10: `extractCompanyName` is total over all inputs — for every string on
which URL construction throws it returns `"the company"`, and for every
parseable URL it returns the hostname after the two replaces; the first
replace deletes exactly a leading `www.`, and the second deletes exactly the
final dot-suffix (the last dot plus a nonempty `.`- and `/`-free tail). -/
theorem extractCompanyName_total_spec :
    (∀ url : List Char, parseHostname url = none →
      extractCompanyName url = "the company".toList) ∧
    (∀ url h : List Char, parseHostname url = some h →
      extractCompanyName url = removeDotSuffix (replaceLeadingWww h)) ∧
    (∀ t : List Char, replaceLeadingWww ("www.".toList ++ t) = t) ∧
    (∀ s t : List Char, t ≠ [] → (∀ c ∈ t, c ≠ '.') → (∀ c ∈ t, c ≠ '/') →
      removeDotSuffix (s ++ '.' :: t) = s) := by
  refine ⟨?_, ?_, ?_, ?_⟩
  · intro url hp
    rw [extractCompanyName, hp]
  · intro url h hp
    rw [extractCompanyName, hp]
  · intro t
    have h4 : ("www.".toList : List Char).length = 4 := by decide
    unfold replaceLeadingWww
    rw [← h4, List.take_left, if_pos rfl, List.drop_left]
  · exact removeDotSuffix_append

/-- C10 witness: an unparseable input falls to the catch branch; the
dot-suffix replace removes `.com`; and the whole function maps
`https://www.example.com` to `example`. -/
theorem extractCompanyName_total_spec_witness :
    extractCompanyName ("notaurl".toList) = "the company".toList ∧
    removeDotSuffix ("example".toList ++ '.' :: "com".toList) = "example".toList ∧
    extractCompanyName ("https://www.example.com".toList) = "example".toList :=
  ⟨extractCompanyName_total_spec.1 _ (by decide),
   extractCompanyName_total_spec.2.2.2 _ _ (by decide) (by decide) (by decide),
   by decide⟩
